import Mathlib

/-!
Formal model of the background import-job mechanism of the data-dictionary
application: the client-side job tracker (`useImportJob`, API variant with
stuck-job detection and auto-cancel) and the server-side worker
(`process-import-job` edge function).

Timestamps are modelled as natural numbers of milliseconds (`Date.now()`).
A nullable / possibly-empty timestamp string is `Option Nat` (`none` models a
falsy value). React state setters and mutable refs are modelled as fields of
an explicit `TrackerState`; each browser callback of the source becomes a pure
function `TrackerState → TrackerState × List Effect`, where `Effect` records
the store mutations and user notifications the callback issues, in order.
Console logging is not modelled. The repeating poll interval is represented by
the `isPolling` flag together with the presence of an adopted job: a poll tick
runs the interval callback exactly when both hold.
-/

namespace DataDict

/-- Lifecycle status of an import job, as in the `ImportJob` interface. -/
inductive Status
  | pending
  | in_progress
  | completed
  | failed
  | cancelled
deriving DecidableEq, Repr

/-- Membership test `['pending', 'in_progress'].includes(status)` used by the
tracker and the worker. -/
def Status.isActive : Status → Bool
  | .pending => true
  | .in_progress => true
  | _ => false

/-- Membership test `['completed', 'failed', 'cancelled'].includes(status)`
used at the tracker's terminal transition. -/
def Status.isTerminal : Status → Bool
  | .completed => true
  | .failed => true
  | .cancelled => true
  | _ => false

/-- The `ImportJob` record persisted by the job store. `config` is an opaque
payload, carried through unevaluated. -/
structure ImportJob where
  id : String
  user_id : String
  config : String
  status : Status
  total_tables : Nat
  imported_tables : Nat
  failed_tables : List String
  error_message : Option String
  database_id : Option String
  created_at : Nat
  updated_at : Option Nat
  completed_at : Option Nat
deriving DecidableEq, Repr

/-- The constant `MAX_POLLING_TIME` (24 hours, in milliseconds). -/
def MAX_POLLING_TIME : Nat := 24 * 60 * 60 * 1000

/-- The constant `STALE_JOB_THRESHOLD` (2 hours, in milliseconds). -/
def STALE_JOB_THRESHOLD : Nat := 2 * 60 * 60 * 1000

/-- The constant `AUTO_CANCEL_GRACE_PERIOD` (15 minutes, in milliseconds). -/
def AUTO_CANCEL_GRACE_PERIOD : Nat := 15 * 60 * 1000

/-- User-visible notifications (toasts) the tracker surfaces. Messages whose
content matters to the analysis carry it as data. -/
inductive Notification
  | resuming
  | staleWarning (minutes : Nat)
  | autoCancelled
  | importCancelled
  | cancelFailed
  | success (msg : String)
  | failure (msg : String)
  | pollingCeiling
  | continuesInBackground
deriving DecidableEq, Repr

/-- Externally visible actions a tracker callback issues, in program order:
a store mutation (`putCancel` is the PUT that sets `status = 'cancelled'` and
`completed_at`), a toast, or the re-invocation of the resume check after a
re-login. Store reads are modelled as inputs to the callbacks, not effects. -/
inductive Effect
  | putCancel (jobId : String)
  | notice (n : Notification)
  | triggerResume
deriving DecidableEq, Repr

/-- Test for a store mutation among a callback's effects. -/
def Effect.isStoreMutation : Effect → Bool
  | .putCancel _ => true
  | _ => false

/-- State of one `useImportJob` tracker instance: the React state variables
(`activeJob`, `isPolling`, `isJobStuck`, `minutesStuck`) and the refs
(`pollingStartTimeRef`, `stuckJobWarningShownRef`, `autoCancelTimeoutRef`,
`isLoggedOutRef`). An armed grace-period timer is `some (deadline, jobId)`,
recording the captured job id its callback will re-fetch and cancel. -/
structure TrackerState where
  activeJob : Option ImportJob
  isPolling : Bool
  isJobStuck : Bool
  minutesStuck : Nat
  pollingStartTime : Option Nat
  stuckJobWarningShown : Bool
  autoCancelTimeout : Option (Nat × String)
  isLoggedOut : Bool
deriving DecidableEq, Repr

/-- The body of `cancelImportJob(jobId)`. The PUT sets `status = 'cancelled'`
and `completed_at`; `putOk` tells whether it succeeded. Only on success does
the source clear the tracker-local state (the clearing statements follow the
awaited PUT inside the `try`); on failure the `catch` merely logs and surfaces
an error toast. -/
def cancelImportJob (jobId : String) (putOk : Bool) (s : TrackerState) :
    TrackerState × List Effect :=
  if putOk then
    ({ s with activeJob := none, isPolling := false, isJobStuck := false,
              minutesStuck := 0, pollingStartTime := none,
              stuckJobWarningShown := false, autoCancelTimeout := none },
     [Effect.putCancel jobId, Effect.notice Notification.importCancelled])
  else
    (s, [Effect.putCancel jobId, Effect.notice Notification.cancelFailed])

/-- Message of the success toast on terminal transition: the source template
is built from `imported_tables` and `total_tables` only. -/
def completedToastMsg (j : ImportJob) : String :=
  "Import completed! " ++ toString j.imported_tables ++ "/" ++
    toString j.total_tables ++ " tables imported"

/-- Message of the failure toast on terminal transition. A `null`
`error_message` interpolates as the text "null", as in the source. -/
def failedToastMsg (j : ImportJob) : String :=
  "Import failed: " ++ j.error_message.getD "null"

/-- Staleness section of the interval callback: guarded by a truthy
`updated_at`; when `now - updated_at` exceeds the stale threshold on an
active job it records the stuck state, raises the warning toast once, and
arms the single-shot grace-period timer; otherwise it resets the stuck flags
and clears any pending grace-period timer. -/
def stalePhase (now : Nat) (updatedJob : ImportJob) (s : TrackerState) :
    TrackerState × List Effect :=
  match updatedJob.updated_at with
  | none => (s, [])
  | some lastUpdate =>
    let timeSinceUpdate := now - lastUpdate
    if STALE_JOB_THRESHOLD < timeSinceUpdate ∧ updatedJob.status.isActive = true then
      let stuckMinutes := (timeSinceUpdate + 30000) / 60000
      let s1 := { s with isJobStuck := true, minutesStuck := stuckMinutes }
      if s1.stuckJobWarningShown = true then (s1, [])
      else
        ({ s1 with stuckJobWarningShown := true,
                   autoCancelTimeout :=
                     some (now + AUTO_CANCEL_GRACE_PERIOD, updatedJob.id) },
         [Effect.notice (Notification.staleWarning stuckMinutes)])
    else
      ({ s with isJobStuck := false, minutesStuck := 0,
                stuckJobWarningShown := false, autoCancelTimeout := none }, [])

/-- Absolute-ceiling section of the interval callback: when a polling start
time is recorded and exceeded by more than `MAX_POLLING_TIME`, stop polling,
reset the start time, surface the advisory toast, and return early (the
Boolean marks the early `return`). -/
def ceilingPhase (now : Nat) (s : TrackerState) :
    TrackerState × List Effect × Bool :=
  match s.pollingStartTime with
  | some start =>
    if MAX_POLLING_TIME < now - start then
      ({ s with isPolling := false, pollingStartTime := none },
       [Effect.notice Notification.pollingCeiling], true)
    else (s, [], false)
  | none => (s, [], false)

/-- Terminal-transition section of the interval callback: on a terminal
status, stop polling, reset the stuck state and timers, and surface the
status-specific toast (silent for `cancelled`). -/
def terminalPhase (updatedJob : ImportJob) (s : TrackerState) :
    TrackerState × List Effect :=
  if updatedJob.status.isTerminal = true then
    let s1 := { s with isPolling := false, isJobStuck := false,
                       minutesStuck := 0, pollingStartTime := none,
                       stuckJobWarningShown := false, autoCancelTimeout := none }
    match updatedJob.status with
    | Status.completed =>
        (s1, [Effect.notice (Notification.success (completedToastMsg updatedJob))])
    | Status.failed =>
        (s1, [Effect.notice (Notification.failure (failedToastMsg updatedJob))])
    | _ => (s1, [])
  else (s, [])

/-- One run of the polling interval callback, given the current time and the
result of `fetchJobStatus(activeJob.id)` (`none` when the fetch failed). A
failed fetch only logs; a successful fetch stores the record and runs the
staleness, ceiling and terminal sections in source order, the ceiling section
returning early when it fires. -/
def pollCallback (now : Nat) (fetched : Option ImportJob) (s : TrackerState) :
    TrackerState × List Effect :=
  match fetched with
  | none => (s, [])
  | some updatedJob =>
    let s1 := { s with activeJob := some updatedJob }
    let r2 := stalePhase now updatedJob s1
    let r3 := ceilingPhase now r2.1
    if r3.2.2 = true then (r3.1, r2.2 ++ r3.2.1)
    else
      let r4 := terminalPhase updatedJob r3.1
      (r4.1, r2.2 ++ r3.2.1 ++ r4.2)

/-- Body of the armed grace-period timer: re-fetch the captured job id; only
when the fresh record exists, is still active, has a truthy `updated_at`, and
`now - updated_at` still exceeds the stale threshold does it run
`cancelImportJob` and surface the distinct auto-cancelled toast; in every
other case it does nothing. -/
def autoCancelCallback (now : Nat) (jobId : String)
    (finalCheck : Option ImportJob) (putOk : Bool) (s : TrackerState) :
    TrackerState × List Effect :=
  match finalCheck with
  | none => (s, [])
  | some fc =>
    if fc.status.isActive = true then
      match fc.updated_at with
      | none => (s, [])
      | some finalUpdateTime =>
        if STALE_JOB_THRESHOLD < now - finalUpdateTime then
          let r := cancelImportJob jobId putOk s
          (r.1, r.2 ++ [Effect.notice Notification.autoCancelled])
        else (s, [])
    else (s, [])

/-- The `storage`-event handler: on removal of the auth token while a job is
tracked, stop polling and forget the job (no store call) and surface the
continues-in-background toast; on a token appearing after such a logout,
re-run the resume check. -/
def handleStorageChange (key : String) (newValue : Option String)
    (s : TrackerState) : TrackerState × List Effect :=
  if key = "authToken" then
    match newValue with
    | none =>
      if s.activeJob.isSome = true then
        ({ s with isPolling := false, activeJob := none, isLoggedOut := true },
         [Effect.notice Notification.continuesInBackground])
      else (s, [])
    | some _ =>
      if s.isLoggedOut = true then
        ({ s with isLoggedOut := false }, [Effect.triggerResume])
      else (s, [])
  else (s, [])

/-- Row filter of the resume query: `user_id` equality and status in
`['pending', 'in_progress']`. -/
def activeJobMatch (uid : String) (j : ImportJob) : Bool :=
  j.user_id = uid && j.status.isActive

/-- Ordering of the resume query: `created_at` descending (newest first). -/
def newestFirst (a b : ImportJob) : Prop := b.created_at ≤ a.created_at

instance : DecidableRel newestFirst := fun a b => Nat.decLe b.created_at a.created_at

instance : IsTotal ImportJob newestFirst := ⟨fun a b => le_total b.created_at a.created_at⟩

instance : IsTrans ImportJob newestFirst :=
  ⟨fun _ _ _ hab hbc => le_trans hbc hab⟩

/-- The resume query over the job store's rows: filter by owner and active
status, order by `created_at` descending, limit 1. -/
def listActiveQuery (uid : String) (store : List ImportJob) : List ImportJob :=
  (List.insertionSort newestFirst (store.filter (activeJobMatch uid))).take 1

/-- The body of `checkForActiveJobs`, given the ambient session identity
(`none` when no auth token is present) and the store's rows: with an identity
present it runs the resume query and, when a job comes back, adopts the first
one and starts polling. -/
def checkForActiveJobs (user : Option String) (store : List ImportJob)
    (s : TrackerState) : TrackerState × List Effect :=
  match user with
  | none => (s, [])
  | some uid =>
    match listActiveQuery uid store with
    | [] => (s, [])
    | job :: _ =>
      ({ s with activeJob := some job, isPolling := true },
       [Effect.notice Notification.resuming])

/-- Worker per-table progress write: sets `imported_tables` and `updated_at`,
nothing else. -/
def progressUpdate (importedCount now : Nat) (j : ImportJob) : ImportJob :=
  { j with imported_tables := importedCount, updated_at := some now }

/-- Worker per-table failure write: sets `failed_tables` and `updated_at`,
nothing else. -/
def failedTablesUpdate (failedTables : List String) (now : Nat)
    (j : ImportJob) : ImportJob :=
  { j with failed_tables := failedTables, updated_at := some now }

/-- The worker's final status: `completed` when no table failed, `failed`
when no table was imported and some failed, otherwise `completed`. -/
def finalStatus (importedCount : Nat) (failedTables : List String) : Status :=
  if failedTables.length = 0 then Status.completed
  else if importedCount = 0 then Status.failed
  else Status.completed

/-- The worker's final update: writes the final status, counters, database
handle, the summary `error_message` when some tables failed (`null`
otherwise), and timestamps. The write is unconditional on the record's
current status. -/
def finalUpdate (importedCount : Nat) (failedTables : List String)
    (dbId : Option String) (now : Nat) (j : ImportJob) : ImportJob :=
  { j with status := finalStatus importedCount failedTables,
           imported_tables := importedCount,
           failed_tables := failedTables,
           database_id := dbId,
           error_message :=
             if 0 < failedTables.length then
               some (toString failedTables.length ++ " tables failed")
             else none,
           updated_at := some now,
           completed_at := some now }

/-- Effect of the tracker's cancel PUT on a job record: sets
`status = 'cancelled'` and `completed_at`, unconditionally. -/
def cancelWrite (now : Nat) (j : ImportJob) : ImportJob :=
  { j with status := Status.cancelled, completed_at := some now }

/-- One scheduled event of the worker's table loop, interleaved with the
tracker: an external cancel PUT landing on the record, or one iteration of
the loop over a selected table (its per-table status check followed, when not
cancelled, by the table's import attempt with outcome `ok`). -/
inductive WorkerStep
  | externalCancel (now : Nat)
  | tableIter (name : String) (ok : Bool) (now : Nat)
deriving DecidableEq, Repr

/-- Running state of the worker's table loop: the shared job record, the
local `importedCount` and `failedTables` accumulators, and whether the
per-table check observed `cancelled` and returned. -/
structure WorkerLoopState where
  job : ImportJob
  importedCount : Nat
  failedTables : List String
  aborted : Bool
deriving DecidableEq, Repr

/-- Small-step semantics of the worker's table loop interleaved with external
cancel writes. A `tableIter` after the loop returned is a no-op; otherwise
the per-table check reads the record's status and returns on `cancelled`;
otherwise the table either imports (progress write) or fails (failure
write). -/
def workerStep (ws : WorkerLoopState) (st : WorkerStep) : WorkerLoopState :=
  match st with
  | .externalCancel now => { ws with job := cancelWrite now ws.job }
  | .tableIter name ok now =>
    if ws.aborted = true then ws
    else if ws.job.status = Status.cancelled then { ws with aborted := true }
    else if ok then
      let c := ws.importedCount + 1
      { ws with importedCount := c, job := progressUpdate c now ws.job }
    else
      let f := ws.failedTables ++ [name]
      { ws with failedTables := f, job := failedTablesUpdate f now ws.job }

/-- End of `processJob`: when the loop returned early on an observed cancel,
no further write happens; otherwise the final update is applied. -/
def workerFinish (now : Nat) (dbId : Option String) (ws : WorkerLoopState) :
    ImportJob :=
  if ws.aborted = true then ws.job
  else finalUpdate ws.importedCount ws.failedTables dbId now ws.job

/-- A complete worker run: the table loop over a schedule of steps, then the
final update. -/
def workerRun (steps : List WorkerStep) (dbId : Option String) (endNow : Nat)
    (ws0 : WorkerLoopState) : ImportJob :=
  workerFinish endNow dbId (steps.foldl workerStep ws0)

/-- An event delivered to the tracker by the browser's event loop: a tick of
the polling interval (with the poll's fetch result) or the firing of the
grace-period timeout (with its re-fetch result and the outcome of the cancel
PUT it may issue). -/
inductive JobEvent
  | pollTick (now : Nat) (fetched : Option ImportJob)
  | graceFire (now : Nat) (fetched : Option ImportJob) (putOk : Bool)
deriving DecidableEq, Repr

/-- Deliver one event: a poll tick runs the interval callback exactly when
polling is on and a job is adopted (the interval exists only then); the
grace timeout runs its callback exactly when the timer is armed (a cleared
timeout never fires), against the job id captured at arming time. -/
def stepEvent (s : TrackerState) (e : JobEvent) : TrackerState × List Effect :=
  match e with
  | .pollTick now fetched =>
    if s.isPolling = true ∧ s.activeJob.isSome = true then
      pollCallback now fetched s
    else (s, [])
  | .graceFire now fetched putOk =>
    match s.autoCancelTimeout with
    | some t => autoCancelCallback now t.2 fetched putOk s
    | none => (s, [])

/-- Deliver a list of events in order, accumulating effects. -/
def runEvents (s : TrackerState) (es : List JobEvent) :
    TrackerState × List Effect :=
  match es with
  | [] => (s, [])
  | e :: rest =>
    let r1 := stepEvent s e
    let r2 := runEvents r1.1 rest
    (r2.1, r1.2 ++ r2.2)

/-- Deliver a sequence of poll ticks, each given as (time, fetched job). -/
def runPolls (s : TrackerState) (polls : List (Nat × ImportJob)) :
    TrackerState × List Effect :=
  runEvents s (polls.map fun q => JobEvent.pollTick q.1 (some q.2))

/-- Event schedule of the continuous-staleness scenario: a run of successful
polls followed by the firing of the grace-period timer, whose re-fetch
returns `jF` and whose cancel PUT succeeds. -/
def staleScenarioEvents (polls : List (Nat × ImportJob)) (tF : Nat)
    (jF : ImportJob) : List JobEvent :=
  (polls.map fun q => JobEvent.pollTick q.1 (some q.2)) ++
    [JobEvent.graceFire tF (some jF) true]

/-- Number of cancel PUTs among a list of effects. -/
def countCancelPuts (effs : List Effect) : Nat :=
  (effs.filter fun e => e.isStoreMutation).length

/-- Test for the stale-warning toast. -/
def Effect.isStaleWarning : Effect → Bool
  | .notice (.staleWarning _) => true
  | _ => false

/-- Number of stale-warning toasts among a list of effects. -/
def countStaleWarnings (effs : List Effect) : Nat :=
  (effs.filter fun e => e.isStaleWarning).length

/-- Number of auto-cancelled toasts among a list of effects. -/
def countAutoCancelled (effs : List Effect) : Nat :=
  (effs.filter fun e => e = Effect.notice Notification.autoCancelled).length

/-! ### Sample records used by witnesses and counterexamples -/

def baseJob : ImportJob :=
  { id := "job-1", user_id := "user-1", config := "cfg",
    status := Status.in_progress, total_tables := 3, imported_tables := 1,
    failed_tables := [], error_message := none, database_id := none,
    created_at := 0, updated_at := some 0, completed_at := none }

def baseTracker : TrackerState :=
  { activeJob := some baseJob, isPolling := true, isJobStuck := false,
    minutesStuck := 0, pollingStartTime := some 0,
    stuckJobWarningShown := false, autoCancelTimeout := none,
    isLoggedOut := false }

def stuckTracker : TrackerState :=
  { baseTracker with
    isJobStuck := true, minutesStuck := 130,
    stuckJobWarningShown := true, autoCancelTimeout := some (900000, "job-1") }

def doneJob : ImportJob :=
  { baseJob with
    status := Status.completed, imported_tables := 3,
    updated_at := some 6000, completed_at := some 6000 }

def doneJobFailed : ImportJob :=
  { doneJob with
    failed_tables := ["t2"], error_message := some "1 tables failed" }

def oldJob : ImportJob := { baseJob with id := "job-old", created_at := 10 }

def newJob : ImportJob := { baseJob with id := "job-new", created_at := 20 }

/-- An in-progress job whose `updated_at` is far behind the poll times used
in the staleness scenarios. -/
def staleJob : ImportJob := { baseJob with updated_at := some 1000 }

/-- Worker-loop start state for the cancellation race scenario. -/
def raceStart : WorkerLoopState :=
  { job := { baseJob with imported_tables := 0, total_tables := 1 },
    importedCount := 0, failedTables := [], aborted := false }

/-- Worker-loop state after one successful table followed by an external
cancel write. -/
def raceMid : WorkerLoopState :=
  List.foldl workerStep raceStart
    [WorkerStep.tableIter "t1" true 10, WorkerStep.externalCancel 20]

/-- Worker-loop state over a record already cancelled, not yet observed. -/
def cancelledWs : WorkerLoopState :=
  { job := { baseJob with status := Status.cancelled }, importedCount := 1,
    failedTables := [], aborted := false }

/-! ### Basic facts about statuses and the callback phases -/

lemma Status.isTerminal_eq_false_of_isActive {st : Status}
    (h : st.isActive = true) : st.isTerminal = false := by
  cases st <;> simp_all [Status.isActive, Status.isTerminal]

lemma Status.isActive_eq_false_of_isTerminal {st : Status}
    (h : st.isTerminal = true) : st.isActive = false := by
  cases st <;> simp_all [Status.isActive, Status.isTerminal]

lemma stalePhase_skeleton (now : Nat) (j : ImportJob) (s : TrackerState) :
    (stalePhase now j s).1.isPolling = s.isPolling ∧
    (stalePhase now j s).1.pollingStartTime = s.pollingStartTime ∧
    (stalePhase now j s).1.activeJob = s.activeJob ∧
    ∀ e ∈ (stalePhase now j s).2, e.isStoreMutation = false := by
  unfold stalePhase
  cases j.updated_at
  · simp
  · dsimp only
    split
    · split <;> simp [Effect.isStoreMutation]
    · simp

lemma ceilingPhase_no_fire (now : Nat) (s : TrackerState)
    (h : ∀ t0, s.pollingStartTime = some t0 → now - t0 ≤ MAX_POLLING_TIME) :
    ceilingPhase now s = (s, [], false) := by
  unfold ceilingPhase
  cases hs : s.pollingStartTime
  · rfl
  · simp [Nat.not_lt.mpr (h _ hs)]

lemma terminalPhase_completed (j : ImportJob) (s : TrackerState)
    (h : j.status = Status.completed) :
    terminalPhase j s =
      ({ s with isPolling := false, isJobStuck := false, minutesStuck := 0,
                pollingStartTime := none, stuckJobWarningShown := false,
                autoCancelTimeout := none },
       [Effect.notice (Notification.success (completedToastMsg j))]) := by
  unfold terminalPhase
  simp only [h]
  rfl

lemma pollCallback_some (now : Nat) (j : ImportJob) (s : TrackerState) :
    pollCallback now (some j) s =
      (let r2 := stalePhase now j { s with activeJob := some j }
       let r3 := ceilingPhase now r2.1
       if r3.2.2 = true then (r3.1, r2.2 ++ r3.2.1)
       else
         let r4 := terminalPhase j r3.1
         (r4.1, r2.2 ++ r3.2.1 ++ r4.2)) := rfl

lemma pollCallback_eq_of_no_ceiling (now : Nat) (j : ImportJob)
    (s : TrackerState)
    (h : ceilingPhase now (stalePhase now j { s with activeJob := some j }).1 =
         ((stalePhase now j { s with activeJob := some j }).1, [], false)) :
    pollCallback now (some j) s =
      ((terminalPhase j (stalePhase now j { s with activeJob := some j }).1).1,
       (stalePhase now j { s with activeJob := some j }).2 ++
         (terminalPhase j (stalePhase now j { s with activeJob := some j }).1).2) := by
  rw [pollCallback_some]
  dsimp only
  rw [h]
  simp

lemma countStaleWarnings_append (a b : List Effect) :
    countStaleWarnings (a ++ b) =
      countStaleWarnings a + countStaleWarnings b := by
  simp [countStaleWarnings, List.filter_append]

lemma countCancelPuts_append (a b : List Effect) :
    countCancelPuts (a ++ b) = countCancelPuts a + countCancelPuts b := by
  simp [countCancelPuts, List.filter_append]

lemma countAutoCancelled_append (a b : List Effect) :
    countAutoCancelled (a ++ b) =
      countAutoCancelled a + countAutoCancelled b := by
  simp [countAutoCancelled, List.filter_append]

lemma ceilingPhase_of_not_fire (now : Nat) (s : TrackerState)
    (h : (ceilingPhase now s).2.2 = false) :
    ceilingPhase now s = (s, [], false) := by
  unfold ceilingPhase at h ⊢
  cases hps : s.pollingStartTime with
  | none => rfl
  | some start =>
    rw [hps] at h
    dsimp only at h ⊢
    by_cases hc : MAX_POLLING_TIME < now - start
    · rw [if_pos hc] at h
      simp at h
    · rw [if_neg hc]

lemma ceilingPhase_of_fire (now : Nat) (s : TrackerState)
    (h : (ceilingPhase now s).2.2 = true) :
    ceilingPhase now s =
      ({ s with isPolling := false, pollingStartTime := none },
       [Effect.notice Notification.pollingCeiling], true) := by
  unfold ceilingPhase at h ⊢
  cases hps : s.pollingStartTime with
  | none =>
    rw [hps] at h
    simp at h
  | some start =>
    rw [hps] at h
    dsimp only at h ⊢
    by_cases hc : MAX_POLLING_TIME < now - start
    · rw [if_pos hc]
    · rw [if_neg hc] at h
      simp at h

lemma terminalPhase_active (j : ImportJob) (s : TrackerState)
    (h : j.status.isActive = true) : terminalPhase j s = (s, []) := by
  unfold terminalPhase
  simp [Status.isTerminal_eq_false_of_isActive h]

lemma stalePhase_stale_warned (now u : Nat) (j : ImportJob)
    (s : TrackerState) (hupd : j.updated_at = some u)
    (hstale : STALE_JOB_THRESHOLD < now - u)
    (hact : j.status.isActive = true)
    (hflag : s.stuckJobWarningShown = true) :
    stalePhase now j s =
      ({ s with isJobStuck := true,
                minutesStuck := (now - u + 30000) / 60000 }, []) := by
  unfold stalePhase
  rw [hupd]
  simp [hstale, hact, hflag]

lemma stalePhase_stale_first (now u : Nat) (j : ImportJob)
    (s : TrackerState) (hupd : j.updated_at = some u)
    (hstale : STALE_JOB_THRESHOLD < now - u)
    (hact : j.status.isActive = true)
    (hflag : s.stuckJobWarningShown = false) :
    stalePhase now j s =
      ({ s with isJobStuck := true,
                minutesStuck := (now - u + 30000) / 60000,
                stuckJobWarningShown := true,
                autoCancelTimeout :=
                  some (now + AUTO_CANCEL_GRACE_PERIOD, j.id) },
       [Effect.notice
         (Notification.staleWarning ((now - u + 30000) / 60000))]) := by
  unfold stalePhase
  rw [hupd]
  simp [hstale, hact, hflag]

lemma stalePhase_fresh (now u : Nat) (j : ImportJob) (s : TrackerState)
    (hupd : j.updated_at = some u)
    (hfresh : now - u ≤ STALE_JOB_THRESHOLD) :
    stalePhase now j s =
      ({ s with isJobStuck := false, minutesStuck := 0,
                stuckJobWarningShown := false, autoCancelTimeout := none },
       []) := by
  unfold stalePhase
  rw [hupd]
  simp [Nat.not_lt.mpr hfresh]

lemma pollCallback_active_fields (now : Nat) (j : ImportJob)
    (s : TrackerState) (hact : j.status.isActive = true) :
    (pollCallback now (some j) s).1.stuckJobWarningShown =
      (stalePhase now j { s with activeJob := some j
        }).1.stuckJobWarningShown ∧
    (pollCallback now (some j) s).1.autoCancelTimeout =
      (stalePhase now j { s with activeJob := some j }).1.autoCancelTimeout ∧
    (pollCallback now (some j) s).1.isJobStuck =
      (stalePhase now j { s with activeJob := some j }).1.isJobStuck ∧
    countStaleWarnings (pollCallback now (some j) s).2 =
      countStaleWarnings (stalePhase now j { s with activeJob := some j }).2 ∧
    countCancelPuts (pollCallback now (some j) s).2 =
      countCancelPuts (stalePhase now j { s with activeJob := some j }).2 ∧
    countAutoCancelled (pollCallback now (some j) s).2 =
      countAutoCancelled (stalePhase now j { s with activeJob := some j }).2
    := by
  rw [pollCallback_some]
  dsimp only
  cases hb : (ceilingPhase now
      (stalePhase now j { s with activeJob := some j }).1).2.2 with
  | false =>
    rw [ceilingPhase_of_not_fire _ _ hb]
    dsimp only
    rw [terminalPhase_active j _ hact]
    simp [countStaleWarnings_append, countCancelPuts_append,
          countAutoCancelled_append, countStaleWarnings, countCancelPuts,
          countAutoCancelled]
  | true =>
    rw [ceilingPhase_of_fire _ _ hb]
    dsimp only
    simp [countStaleWarnings_append, countCancelPuts_append,
          countAutoCancelled_append, countStaleWarnings, countCancelPuts,
          countAutoCancelled, Effect.isStaleWarning, Effect.isStoreMutation]

lemma pollCallback_stale_warn_count (now u : Nat) (j : ImportJob)
    (s : TrackerState) (hupd : j.updated_at = some u)
    (hstale : STALE_JOB_THRESHOLD < now - u)
    (hact : j.status.isActive = true) :
    (pollCallback now (some j) s).1.stuckJobWarningShown = true ∧
    countStaleWarnings (pollCallback now (some j) s).2 =
      (if s.stuckJobWarningShown = true then 0 else 1) := by
  have hm := pollCallback_active_fields now j s hact
  by_cases hflag : s.stuckJobWarningShown = true
  · rw [stalePhase_stale_warned now u j { s with activeJob := some j }
        hupd hstale hact hflag] at hm
    simp only at hm
    refine ⟨?_, ?_⟩
    · rw [hm.1]
      exact hflag
    · rw [hm.2.2.2.1, if_pos hflag]
      rfl
  · have hflag' : s.stuckJobWarningShown = false := by
      cases hfv : s.stuckJobWarningShown
      · rfl
      · exact absurd hfv hflag
    rw [stalePhase_stale_first now u j { s with activeJob := some j }
        hupd hstale hact hflag'] at hm
    simp only at hm
    refine ⟨?_, ?_⟩
    · rw [hm.1]
    · rw [hm.2.2.2.1, if_neg hflag]
      rfl

lemma runEvents_cons (s : TrackerState) (e : JobEvent)
    (es : List JobEvent) :
    runEvents s (e :: es) =
      ((runEvents (stepEvent s e).1 es).1,
       (stepEvent s e).2 ++ (runEvents (stepEvent s e).1 es).2) := rfl

lemma runEvents_append (s : TrackerState) (es fs : List JobEvent) :
    runEvents s (es ++ fs) =
      ((runEvents (runEvents s es).1 fs).1,
       (runEvents s es).2 ++ (runEvents (runEvents s es).1 fs).2) := by
  induction es generalizing s with
  | nil => simp [runEvents]
  | cons e es ih =>
    rw [List.cons_append, runEvents_cons, runEvents_cons, ih]
    simp [List.append_assoc]

lemma runEvents_singleton (s : TrackerState) (e : JobEvent) :
    runEvents s [e] = ((stepEvent s e).1, (stepEvent s e).2 ++ []) := rfl

lemma stepEvent_grace_armed (s : TrackerState) (now : Nat)
    (f : Option ImportJob) (ok : Bool) (a : Nat × String)
    (h : s.autoCancelTimeout = some a) :
    stepEvent s (JobEvent.graceFire now f ok) =
      autoCancelCallback now a.2 f ok s := by
  unfold stepEvent
  dsimp only
  rw [h]

lemma runPolls_cons (s : TrackerState) (p : Nat × ImportJob)
    (rest : List (Nat × ImportJob)) :
    runPolls s (p :: rest) =
      ((runPolls (stepEvent s (JobEvent.pollTick p.1 (some p.2))).1 rest).1,
       (stepEvent s (JobEvent.pollTick p.1 (some p.2))).2 ++
         (runPolls (stepEvent s (JobEvent.pollTick p.1 (some p.2))).1
           rest).2) := rfl

lemma stepEvent_poll_on (s : TrackerState) (now : Nat)
    (f : Option ImportJob) (h1 : s.isPolling = true)
    (h2 : s.activeJob.isSome = true) :
    stepEvent s (JobEvent.pollTick now f) = pollCallback now f s := by
  unfold stepEvent
  dsimp only
  rw [if_pos ⟨h1, h2⟩]

lemma stepEvent_poll_off (s : TrackerState) (now : Nat)
    (f : Option ImportJob)
    (h : ¬(s.isPolling = true ∧ s.activeJob.isSome = true)) :
    stepEvent s (JobEvent.pollTick now f) = (s, []) := by
  unfold stepEvent
  dsimp only
  rw [if_neg h]

lemma runPolls_warned (polls : List (Nat × ImportJob)) :
    ∀ s : TrackerState,
    (∀ q ∈ polls, ∃ u, q.2.updated_at = some u ∧
       STALE_JOB_THRESHOLD < q.1 - u ∧ q.2.status.isActive = true) →
    s.stuckJobWarningShown = true →
    (runPolls s polls).1.stuckJobWarningShown = true ∧
    countStaleWarnings (runPolls s polls).2 = 0 := by
  induction polls with
  | nil =>
    intro s _ hflag
    exact ⟨hflag, rfl⟩
  | cons p rest ih =>
    intro s hq hflag
    obtain ⟨u, hupd, hstale, hact⟩ := hq p (List.mem_cons_self p rest)
    rw [runPolls_cons]
    by_cases hgate : s.isPolling = true ∧ s.activeJob.isSome = true
    · rw [stepEvent_poll_on s p.1 (some p.2) hgate.1 hgate.2]
      have hpc := pollCallback_stale_warn_count p.1 u p.2 s hupd hstale hact
      have hrest := ih (pollCallback p.1 (some p.2) s).1
        (fun q hq' => hq q (List.mem_cons_of_mem p hq')) hpc.1
      refine ⟨hrest.1, ?_⟩
      rw [countStaleWarnings_append, hrest.2, hpc.2, if_pos hflag]
    · rw [stepEvent_poll_off s p.1 (some p.2) hgate]
      have hrest := ih s (fun q hq' => hq q (List.mem_cons_of_mem p hq'))
        hflag
      simpa using hrest

lemma runPolls_warncount (polls : List (Nat × ImportJob)) :
    ∀ s : TrackerState,
    (∀ q ∈ polls, ∃ u, q.2.updated_at = some u ∧
       STALE_JOB_THRESHOLD < q.1 - u ∧ q.2.status.isActive = true) →
    countStaleWarnings (runPolls s polls).2 ≤ 1 := by
  induction polls with
  | nil =>
    intro s _
    simp [runPolls, runEvents, countStaleWarnings]
  | cons p rest ih =>
    intro s hq
    obtain ⟨u, hupd, hstale, hact⟩ := hq p (List.mem_cons_self p rest)
    rw [runPolls_cons]
    by_cases hgate : s.isPolling = true ∧ s.activeJob.isSome = true
    · rw [stepEvent_poll_on s p.1 (some p.2) hgate.1 hgate.2]
      have hpc := pollCallback_stale_warn_count p.1 u p.2 s hupd hstale hact
      have hrest := runPolls_warned rest (pollCallback p.1 (some p.2) s).1
        (fun q hq' => hq q (List.mem_cons_of_mem p hq')) hpc.1
      rw [countStaleWarnings_append, hrest.2, hpc.2]
      by_cases hflag : s.stuckJobWarningShown = true <;> simp [hflag]
    · rw [stepEvent_poll_off s p.1 (some p.2) hgate]
      simpa using ih s (fun q hq' => hq q (List.mem_cons_of_mem p hq'))

lemma pollCallback_stale_arm (now t0 u : Nat) (j : ImportJob)
    (s : TrackerState) (hupd : j.updated_at = some u)
    (hstale : STALE_JOB_THRESHOLD < now - u)
    (hact : j.status.isActive = true)
    (hflag : s.stuckJobWarningShown = false)
    (hstart : s.pollingStartTime = some t0)
    (hceil : now - t0 ≤ MAX_POLLING_TIME) :
    pollCallback now (some j) s =
      ({ s with activeJob := some j, isJobStuck := true,
                minutesStuck := (now - u + 30000) / 60000,
                stuckJobWarningShown := true,
                autoCancelTimeout :=
                  some (now + AUTO_CANCEL_GRACE_PERIOD, j.id) },
       [Effect.notice
         (Notification.staleWarning ((now - u + 30000) / 60000))]) := by
  have hsp := stalePhase_stale_first now u j { s with activeJob := some j }
    hupd hstale hact hflag
  have hcc : ceilingPhase now
      (stalePhase now j { s with activeJob := some j }).1 =
      ((stalePhase now j { s with activeJob := some j }).1, [], false) := by
    apply ceilingPhase_no_fire
    intro t0' ht0'
    rw [hsp] at ht0'
    simp only at ht0'
    rw [hstart] at ht0'
    injection ht0' with h0
    rw [← h0]
    exact hceil
  rw [pollCallback_eq_of_no_ceiling now j s hcc,
      terminalPhase_active j _ hact, hsp]
  rfl

lemma pollCallback_stale_keep (now t0 u : Nat) (j : ImportJob)
    (s : TrackerState) (hupd : j.updated_at = some u)
    (hstale : STALE_JOB_THRESHOLD < now - u)
    (hact : j.status.isActive = true)
    (hflag : s.stuckJobWarningShown = true)
    (hstart : s.pollingStartTime = some t0)
    (hceil : now - t0 ≤ MAX_POLLING_TIME) :
    pollCallback now (some j) s =
      ({ s with activeJob := some j, isJobStuck := true,
                minutesStuck := (now - u + 30000) / 60000 }, []) := by
  have hsp := stalePhase_stale_warned now u j { s with activeJob := some j }
    hupd hstale hact hflag
  have hcc : ceilingPhase now
      (stalePhase now j { s with activeJob := some j }).1 =
      ((stalePhase now j { s with activeJob := some j }).1, [], false) := by
    apply ceilingPhase_no_fire
    intro t0' ht0'
    rw [hsp] at ht0'
    simp only at ht0'
    rw [hstart] at ht0'
    injection ht0' with h0
    rw [← h0]
    exact hceil
  rw [pollCallback_eq_of_no_ceiling now j s hcc,
      terminalPhase_active j _ hact, hsp]
  simp

lemma autoCancelCallback_fires (now u : Nat) (jid : String)
    (j : ImportJob) (s : TrackerState) (hact : j.status.isActive = true)
    (hupd : j.updated_at = some u)
    (hstale : STALE_JOB_THRESHOLD < now - u) :
    autoCancelCallback now jid (some j) true s =
      ({ s with activeJob := none, isPolling := false, isJobStuck := false,
                minutesStuck := 0, pollingStartTime := none,
                stuckJobWarningShown := false, autoCancelTimeout := none },
       [Effect.putCancel jid, Effect.notice Notification.importCancelled,
        Effect.notice Notification.autoCancelled]) := by
  unfold autoCancelCallback cancelImportJob
  dsimp only
  simp [hupd, hact, hstale]

lemma runPolls_stale_keep (t0 u : Nat) (a : Nat × String)
    (polls : List (Nat × ImportJob)) :
    ∀ s : TrackerState,
    s.isPolling = true → s.activeJob.isSome = true →
    s.stuckJobWarningShown = true → s.pollingStartTime = some t0 →
    s.autoCancelTimeout = some a →
    (∀ q ∈ polls, q.2.updated_at = some u ∧
       STALE_JOB_THRESHOLD < q.1 - u ∧ q.2.status.isActive = true ∧
       q.1 - t0 ≤ MAX_POLLING_TIME) →
    (runPolls s polls).2 = [] ∧
    (runPolls s polls).1.isPolling = true ∧
    (runPolls s polls).1.activeJob.isSome = true ∧
    (runPolls s polls).1.stuckJobWarningShown = true ∧
    (runPolls s polls).1.pollingStartTime = some t0 ∧
    (runPolls s polls).1.autoCancelTimeout = some a := by
  induction polls with
  | nil =>
    intro s h1 h2 h3 h4 h5 _
    exact ⟨rfl, h1, h2, h3, h4, h5⟩
  | cons p rest ih =>
    intro s h1 h2 h3 h4 h5 hq
    obtain ⟨hupd, hstale, hact, hc⟩ := hq p (List.mem_cons_self p rest)
    rw [runPolls_cons, stepEvent_poll_on s p.1 (some p.2) h1 h2,
        pollCallback_stale_keep p.1 t0 u p.2 s hupd hstale hact h3 h4 hc]
    have hrest := ih
      { s with
        activeJob := some p.2, isJobStuck := true,
        minutesStuck := (p.1 - u + 30000) / 60000 }
      h1 rfl h3 h4 h5 (fun q hq' => hq q (List.mem_cons_of_mem p hq'))
    simpa using hrest

/-! ### Claims -/

/-- C1: when the armed grace-period timer fires, the tracker re-fetches the
job; if the freshly fetched record is terminal, or its `updated_at` is within
the stale threshold of the current time, the auto-cancel action is a no-op:
no cancel request is sent to the store and the tracker's state is
unchanged. -/
theorem C1_grace_recheck_noop (now : Nat) (jobId : String) (j : ImportJob)
    (putOk : Bool) (s : TrackerState) (u : Nat)
    (h : j.status.isTerminal = true ∨
         (j.updated_at = some u ∧ now - u ≤ STALE_JOB_THRESHOLD)) :
    autoCancelCallback now jobId (some j) putOk s = (s, []) := by
  unfold autoCancelCallback
  rcases h with ht | ⟨hu, hle⟩
  · simp [Status.isActive_eq_false_of_isTerminal ht]
  · have hlt : ¬ STALE_JOB_THRESHOLD < now - u := Nat.not_lt.mpr hle
    cases hact : j.status.isActive
    · simp [hact]
    · simp [hact, hu, hlt]

/-- C1 witness: a terminal re-fetch at grace expiry leaves the state of a
stale-warned tracker untouched and sends nothing. -/
theorem C1_grace_recheck_noop_witness :
    autoCancelCallback 1000000000 "job-1" (some doneJob) true stuckTracker =
      (stuckTracker, []) :=
  C1_grace_recheck_noop 1000000000 "job-1" doneJob true stuckTracker 6000
    (Or.inl (by decide))

/-- C3 counterexample: the worker's final status update writes `status`
unconditionally, so a cancel write landing after the last per-table check is
overwritten: after one successful table and an external cancel, the record is
`cancelled`, the loop never observed it (`aborted = false`), and the final
update moves the terminal record to `completed`. -/
theorem C3_terminal_overwrite_counterexample :
    raceMid.job.status = Status.cancelled ∧
    raceMid.aborted = false ∧
    (workerRun [WorkerStep.tableIter "t1" true 10, WorkerStep.externalCancel 20]
        none 30 raceStart).status = Status.completed := by
  refine ⟨rfl, rfl, rfl⟩

/-- C3 amended: per-table progress and failed-table writes never change
`status`; once the per-table check observes `cancelled` the loop writes
nothing further and the final update is skipped; every status actually
written (the worker's final status, the cancel write) is terminal. The
unconditional final and cancel writes may however replace one terminal
status with another, as the counterexample shows. -/
theorem C3_status_transition_discipline (c n : Nat) (f : List String)
    (j : ImportJob) (ws : WorkerLoopState) (name : String) (ok : Bool)
    (dbId : Option String) (imp : Nat) (fl : List String) :
    (progressUpdate c n j).status = j.status ∧
    (failedTablesUpdate f n j).status = j.status ∧
    (ws.job.status = Status.cancelled →
       (workerStep ws (WorkerStep.tableIter name ok n)).job = ws.job ∧
       (workerStep ws (WorkerStep.tableIter name ok n)).aborted = true) ∧
    (ws.aborted = true → workerStep ws (WorkerStep.tableIter name ok n) = ws) ∧
    (ws.aborted = true → workerFinish n dbId ws = ws.job) ∧
    (finalStatus imp fl).isTerminal = true ∧
    (cancelWrite n j).status.isTerminal = true := by
  refine ⟨rfl, rfl, ?_, ?_, ?_, ?_, rfl⟩
  · intro h
    unfold workerStep
    cases ha : ws.aborted <;> simp [ha, h]
  · intro h
    unfold workerStep
    simp [h]
  · intro h
    unfold workerFinish
    simp [h]
  · unfold finalStatus
    split
    · rfl
    · split <;> rfl

/-- C3 amended witness: a loop iteration whose per-table check observes a
cancelled record writes nothing and aborts the loop. -/
theorem C3_status_transition_discipline_witness :
    (workerStep cancelledWs (WorkerStep.tableIter "t3" true 60)).job =
      cancelledWs.job ∧
    (workerStep cancelledWs (WorkerStep.tableIter "t3" true 60)).aborted =
      true :=
  (C3_status_transition_discipline 2 50 ["t2"] baseJob cancelledWs "t3" true
      none 1 []).2.2.1 rfl

/-- C4 counterexample: when the cancel PUT fails, `cancelImportJob` leaves
the tracker state entirely unchanged — polling still on and the grace-period
timer still armed — contradicting the claim that the tracker-local effects
occur regardless of store-call success. -/
theorem C4_cancel_failure_counterexample :
    (cancelImportJob "job-1" false stuckTracker).1 = stuckTracker ∧
    stuckTracker.isPolling = true ∧
    stuckTracker.autoCancelTimeout = some (900000, "job-1") := by
  refine ⟨rfl, rfl, rfl⟩

/-- C4 amended: the tracker-local effects of `cancelJob` — stop polling,
clear the grace timer and the polling start time, forget the adopted job —
occur exactly when the store update succeeds; on store failure the operation
fails silently (an error notification is surfaced) but the tracker state,
including running polling and timers, is left unchanged. -/
theorem C4_cancel_effects (s : TrackerState) (jobId : String) :
    ((cancelImportJob jobId true s).1.isPolling = false ∧
     (cancelImportJob jobId true s).1.activeJob = none ∧
     (cancelImportJob jobId true s).1.autoCancelTimeout = none ∧
     (cancelImportJob jobId true s).1.pollingStartTime = none ∧
     (cancelImportJob jobId true s).1.stuckJobWarningShown = false) ∧
    (cancelImportJob jobId false s).1 = s ∧
    (cancelImportJob jobId false s).2 =
      [Effect.putCancel jobId, Effect.notice Notification.cancelFailed] := by
  simp [cancelImportJob]

/-- C5: on loss of session identity with an adopted job, the tracker only
stops polling, forgets the job, marks the logged-out flag and surfaces the
continues-in-background notice; no store mutation is issued. -/
theorem C5_logout_local_only (s : TrackerState) (j : ImportJob)
    (h : s.activeJob = some j) :
    handleStorageChange "authToken" none s =
      ({ s with isPolling := false, activeJob := none, isLoggedOut := true },
       [Effect.notice Notification.continuesInBackground]) ∧
    ∀ e ∈ (handleStorageChange "authToken" none s).2,
      e.isStoreMutation = false := by
  have hs : s.activeJob.isSome = true := by rw [h]; rfl
  constructor
  · simp [handleStorageChange, hs]
  · simp [handleStorageChange, hs, Effect.isStoreMutation]

/-- C5 witness: the logout transition at a concrete polling tracker. -/
theorem C5_logout_local_only_witness :
    (handleStorageChange "authToken" none baseTracker =
      ({ baseTracker with
         isPolling := false, activeJob := none, isLoggedOut := true },
       [Effect.notice Notification.continuesInBackground]) ∧
     ∀ e ∈ (handleStorageChange "authToken" none baseTracker).2,
       e.isStoreMutation = false) :=
  C5_logout_local_only baseTracker baseJob rfl

/-- C10: the worker's final update marks the job `failed` exactly when no
table was imported and at least one failed; with at least one imported table
(or none failed) the final status is `completed`; `error_message` is the
summary string built from the number of failed tables, `null` when none
failed. -/
theorem C10_final_status_rule (importedCount : Nat) (failedTables : List String)
    (dbId : Option String) (now : Nat) (j : ImportJob) :
    (finalStatus importedCount failedTables = Status.failed ↔
       0 < failedTables.length ∧ importedCount = 0) ∧
    (finalStatus importedCount failedTables = Status.completed ↔
       (failedTables.length = 0 ∨ 0 < importedCount)) ∧
    (finalUpdate importedCount failedTables dbId now j).status =
      finalStatus importedCount failedTables ∧
    (finalUpdate importedCount failedTables dbId now j).error_message =
      (if 0 < failedTables.length
       then some (toString failedTables.length ++ " tables failed")
       else none) := by
  refine ⟨?_, ?_, rfl, rfl⟩
  · by_cases h0 : failedTables.length = 0
    · simp [finalStatus, h0]
    · by_cases hc : importedCount = 0
      · simp [finalStatus, h0, hc, Nat.pos_of_ne_zero h0]
      · simp [finalStatus, h0, hc]
  · by_cases h0 : failedTables.length = 0
    · simp [finalStatus, h0]
    · by_cases hc : importedCount = 0
      · simp [finalStatus, h0, hc]
      · simp [finalStatus, h0, hc, Nat.pos_of_ne_zero hc]

/-- C7 counterexample: for a completed poll of a job with one failed table
the only notification surfaced is the success toast, and its text — built
from `imported_tables` and `total_tables` alone — is identical to the text
for the same job with no failed tables: the notification does not cite the
number of failed units derived from `failed_tables`. -/
theorem C7_no_failed_count_counterexample :
    (pollCallback 8000 (some doneJobFailed) baseTracker).2 =
      [Effect.notice
        (Notification.success "Import completed! 3/3 tables imported")] ∧
    completedToastMsg doneJobFailed = completedToastMsg doneJob ∧
    doneJobFailed.failed_tables.length = 1 ∧
    doneJob.failed_tables.length = 0 := by
  refine ⟨by decide, rfl, rfl, rfl⟩

/-- C7 amended: on a poll observing `status = completed` (with the polling
ceiling not exceeded), the tracker stops polling, clears the grace timer,
the warning flag and the polling start time, and surfaces a success
notification citing `imported_tables`/`total_tables`; the number of failed
units from `failed_tables` is not part of the notification. No store
mutation is issued. -/
theorem C7_completed_poll (now : Nat) (j : ImportJob) (s : TrackerState)
    (hstatus : j.status = Status.completed)
    (hceil : ∀ t0, s.pollingStartTime = some t0 →
       now - t0 ≤ MAX_POLLING_TIME) :
    (pollCallback now (some j) s).1.isPolling = false ∧
    (pollCallback now (some j) s).1.autoCancelTimeout = none ∧
    (pollCallback now (some j) s).1.pollingStartTime = none ∧
    (pollCallback now (some j) s).1.stuckJobWarningShown = false ∧
    Effect.notice (Notification.success (completedToastMsg j)) ∈
      (pollCallback now (some j) s).2 ∧
    ∀ e ∈ (pollCallback now (some j) s).2, e.isStoreMutation = false := by
  have hskel := stalePhase_skeleton now j { s with activeJob := some j }
  have hstart : (stalePhase now j { s with activeJob := some j
      }).1.pollingStartTime = s.pollingStartTime := hskel.2.1
  have hcc : ceilingPhase now
      (stalePhase now j { s with activeJob := some j }).1 =
      ((stalePhase now j { s with activeJob := some j }).1, [], false) := by
    apply ceilingPhase_no_fire
    intro t0 ht0
    apply hceil t0
    rw [← hstart]
    exact ht0
  rw [pollCallback_eq_of_no_ceiling now j s hcc,
      terminalPhase_completed j _ hstatus]
  refine ⟨rfl, rfl, rfl, rfl, ?_, ?_⟩
  · simp
  · intro e he
    rcases List.mem_append.mp he with h1 | h2
    · exact hskel.2.2.2 e h1
    · simp only [List.mem_singleton] at h2
      subst h2
      rfl

/-- C7 amended witness: the completed poll at a concrete tracker. -/
theorem C7_completed_poll_witness :
    (pollCallback 8000 (some doneJob) baseTracker).1.isPolling = false ∧
    Effect.notice (Notification.success (completedToastMsg doneJob)) ∈
      (pollCallback 8000 (some doneJob) baseTracker).2 := by
  have h := C7_completed_poll 8000 doneJob baseTracker rfl (by
    intro t0 ht0
    have h0 : (some 0 : Option Nat) = some t0 := ht0
    injection h0 with h0
    subst h0
    decide)
  exact ⟨h.1, h.2.2.2.2.1⟩

/-- C8 counterexample: a poll that fails to reach the store is a complete
no-op even when wall-clock time since polling began is far beyond the
24-hour ceiling: the tracker state is unchanged and polling continues, so
the ceiling does not stop polling when polls fail. -/
theorem C8_failed_poll_ignores_ceiling_counterexample :
    pollCallback (2 * MAX_POLLING_TIME) none baseTracker =
      (baseTracker, []) ∧
    baseTracker.isPolling = true ∧
    baseTracker.pollingStartTime = some 0 ∧
    MAX_POLLING_TIME < 2 * MAX_POLLING_TIME - 0 := by
  refine ⟨rfl, rfl, rfl, by decide⟩

/-- C8 amended: the absolute polling ceiling is enforced only on successful
polls: on a successful poll past the ceiling the tracker stops polling,
resets the polling start time, surfaces the advisory notification and sends
no store mutation; a failed poll leaves the tracker unchanged, so the
ceiling is not applied while the store is unreachable. -/
theorem C8_ceiling_on_successful_poll (now t0 : Nat) (j : ImportJob)
    (s : TrackerState) (hstart : s.pollingStartTime = some t0)
    (hover : MAX_POLLING_TIME < now - t0) :
    (pollCallback now (some j) s).1.isPolling = false ∧
    (pollCallback now (some j) s).1.pollingStartTime = none ∧
    Effect.notice Notification.pollingCeiling ∈
      (pollCallback now (some j) s).2 ∧
    (∀ e ∈ (pollCallback now (some j) s).2, e.isStoreMutation = false) ∧
    pollCallback now none s = (s, []) := by
  have hskel := stalePhase_skeleton now j { s with activeJob := some j }
  have hst : (stalePhase now j { s with activeJob := some j
      }).1.pollingStartTime = some t0 := by
    rw [hskel.2.1]
    exact hstart
  have hcc : ceilingPhase now
      (stalePhase now j { s with activeJob := some j }).1 =
      ({ (stalePhase now j { s with activeJob := some j }).1 with
         isPolling := false, pollingStartTime := none },
       [Effect.notice Notification.pollingCeiling], true) := by
    unfold ceilingPhase
    rw [hst]
    simp [hover]
  rw [pollCallback_some]
  dsimp only
  rw [hcc]
  refine ⟨rfl, rfl, ?_, ?_, rfl⟩
  · simp
  · intro e he
    rcases List.mem_append.mp he with h1 | h2
    · exact hskel.2.2.2 e h1
    · simp only [List.mem_singleton] at h2
      subst h2
      rfl

/-- C6: during a continuous stale period — successive polls each observing
the adopted job active with `now - updated_at` beyond the stale threshold —
the stale-warning notification is raised at most once; and a poll observing
the job fresh again clears the warning flag, the stuck state and the
pending grace-period timer, so only un-staling followed by re-staling can
produce a second warning. -/
theorem C6_stale_warning_once :
    (∀ (polls : List (Nat × ImportJob)) (s : TrackerState),
       (∀ q ∈ polls, ∃ u, q.2.updated_at = some u ∧
          STALE_JOB_THRESHOLD < q.1 - u ∧ q.2.status.isActive = true) →
       countStaleWarnings (runPolls s polls).2 ≤ 1) ∧
    (∀ (now u : Nat) (j : ImportJob) (s : TrackerState),
       j.updated_at = some u → now - u ≤ STALE_JOB_THRESHOLD →
       j.status.isActive = true →
       (pollCallback now (some j) s).1.stuckJobWarningShown = false ∧
       (pollCallback now (some j) s).1.autoCancelTimeout = none ∧
       (pollCallback now (some j) s).1.isJobStuck = false) := by
  constructor
  · intro polls s h
    exact runPolls_warncount polls s h
  · intro now u j s hupd hfresh hact
    have hm := pollCallback_active_fields now j s hact
    rw [stalePhase_fresh now u j { s with activeJob := some j }
        hupd hfresh] at hm
    simp only at hm
    exact ⟨hm.1, hm.2.1, hm.2.2.1⟩

/-- C6 witness: one stale poll raises at most one warning, and a fresh poll
at a stale-warned tracker clears the warning flag. -/
theorem C6_stale_warning_once_witness :
    countStaleWarnings (runPolls baseTracker [(9000000, staleJob)]).2 ≤ 1 ∧
    (pollCallback 2000 (some staleJob)
      stuckTracker).1.stuckJobWarningShown = false := by
  have h := C6_stale_warning_once
  refine ⟨h.1 [(9000000, staleJob)] baseTracker ?_,
    (h.2 2000 1000 staleJob stuckTracker rfl (by decide) rfl).1⟩
  intro q hq
  simp only [List.mem_singleton] at hq
  subst hq
  exact ⟨1000, rfl, by decide, rfl⟩

/-- C2: for a job that is continuously stale from detection through
grace-period expiry (every poll sees it active with the same old
`updated_at`, and the expiry re-fetch still does), the tracker performs the
cancelJob-equivalent action exactly once, at expiry: exactly one cancel PUT
(which sets `status = 'cancelled'` and `completed_at` on the record),
polling stopped, the adopted job and the grace timer cleared, one
stale-warning toast and one distinct auto-cancelled toast. -/
theorem C2_continuous_stale_autocancel (t0 u tF : Nat) (jF : ImportJob)
    (s0 : TrackerState) (p : Nat × ImportJob)
    (rest : List (Nat × ImportJob))
    (h0poll : s0.isPolling = true) (h0job : s0.activeJob.isSome = true)
    (h0flag : s0.stuckJobWarningShown = false)
    (h0start : s0.pollingStartTime = some t0)
    (hq : ∀ q ∈ p :: rest, q.2.updated_at = some u ∧
       STALE_JOB_THRESHOLD < q.1 - u ∧ q.2.status.isActive = true ∧
       q.1 - t0 ≤ MAX_POLLING_TIME)
    (hFact : jF.status.isActive = true) (hFupd : jF.updated_at = some u)
    (hFstale : STALE_JOB_THRESHOLD < tF - u) :
    countCancelPuts
      (runEvents s0 (staleScenarioEvents (p :: rest) tF jF)).2 = 1 ∧
    countAutoCancelled
      (runEvents s0 (staleScenarioEvents (p :: rest) tF jF)).2 = 1 ∧
    countStaleWarnings
      (runEvents s0 (staleScenarioEvents (p :: rest) tF jF)).2 = 1 ∧
    (runEvents s0
      (staleScenarioEvents (p :: rest) tF jF)).1.isPolling = false ∧
    (runEvents s0
      (staleScenarioEvents (p :: rest) tF jF)).1.activeJob = none ∧
    (runEvents s0
      (staleScenarioEvents (p :: rest) tF jF)).1.autoCancelTimeout = none ∧
    ∀ (m : Nat) (r : ImportJob),
      (cancelWrite m r).status = Status.cancelled ∧
      (cancelWrite m r).completed_at = some m := by
  obtain ⟨hupd, hstale, hact, hc⟩ := hq p (List.mem_cons_self p rest)
  have hsplit : staleScenarioEvents (p :: rest) tF jF =
      JobEvent.pollTick p.1 (some p.2) ::
        ((rest.map fun q => JobEvent.pollTick q.1 (some q.2)) ++
          [JobEvent.graceFire tF (some jF) true]) := rfl
  rw [hsplit, runEvents_cons,
      stepEvent_poll_on s0 p.1 (some p.2) h0poll h0job,
      pollCallback_stale_arm p.1 t0 u p.2 s0 hupd hstale hact h0flag
        h0start hc]
  dsimp only
  rw [runEvents_append,
      show (runEvents
          { s0 with
            activeJob := some p.2, isJobStuck := true,
            minutesStuck := (p.1 - u + 30000) / 60000,
            stuckJobWarningShown := true,
            autoCancelTimeout :=
              some (p.1 + AUTO_CANCEL_GRACE_PERIOD, p.2.id) }
          (rest.map fun q => JobEvent.pollTick q.1 (some q.2))) =
        (runPolls
          { s0 with
            activeJob := some p.2, isJobStuck := true,
            minutesStuck := (p.1 - u + 30000) / 60000,
            stuckJobWarningShown := true,
            autoCancelTimeout :=
              some (p.1 + AUTO_CANCEL_GRACE_PERIOD, p.2.id) } rest)
        from rfl]
  have hkeep := runPolls_stale_keep t0 u
    (p.1 + AUTO_CANCEL_GRACE_PERIOD, p.2.id) rest
    { s0 with
      activeJob := some p.2, isJobStuck := true,
      minutesStuck := (p.1 - u + 30000) / 60000,
      stuckJobWarningShown := true,
      autoCancelTimeout := some (p.1 + AUTO_CANCEL_GRACE_PERIOD, p.2.id) }
    h0poll rfl rfl h0start rfl
    (fun q hq' => hq q (List.mem_cons_of_mem p hq'))
  rw [hkeep.1, runEvents_singleton,
      stepEvent_grace_armed _ tF (some jF) true _ hkeep.2.2.2.2.2,
      autoCancelCallback_fires tF u _ jF _ hFact hFupd hFstale]
  refine ⟨?_, ?_, ?_, rfl, rfl, rfl, fun m r => ⟨rfl, rfl⟩⟩ <;>
    simp [countCancelPuts, countAutoCancelled, countStaleWarnings,
          Effect.isStoreMutation, Effect.isStaleWarning]

/-- C2 witness: a concrete continuously stale run — one stale poll followed
by a stale grace-expiry — cancels exactly once and stops polling. -/
theorem C2_continuous_stale_autocancel_witness :
    countCancelPuts
      (runEvents baseTracker
        (staleScenarioEvents [(9000000, staleJob)] 9900000 staleJob)).2 =
      1 ∧
    (runEvents baseTracker
      (staleScenarioEvents [(9000000, staleJob)] 9900000
        staleJob)).1.isPolling = false := by
  have h := C2_continuous_stale_autocancel 0 1000 9900000 staleJob
    baseTracker (9000000, staleJob) [] rfl rfl rfl rfl
    (by
      intro q hq
      simp only [List.mem_singleton] at hq
      subst hq
      exact ⟨rfl, by decide, rfl, by decide⟩)
    rfl rfl (by decide)
  exact ⟨h.1, h.2.2.2.1⟩

/-- C9: with a session identity present, the resume operation queries the
store for the user's jobs with active status ordered newest-first and
limited to one, so it adopts at most one job; any adopted job is an active
job of the user whose `created_at` is maximal among the user's active jobs
in the store, and adoption sets it as the active job and starts polling.
Without a session identity, or with no active job, nothing happens. -/
theorem C9_resume_adopts_newest_active (uid : String)
    (store : List ImportJob) (s : TrackerState) :
    (listActiveQuery uid store).length ≤ 1 ∧
    (∀ j ∈ listActiveQuery uid store,
       j.user_id = uid ∧ j.status.isActive = true ∧
       ∀ k ∈ store, k.user_id = uid → k.status.isActive = true →
         k.created_at ≤ j.created_at) ∧
    (∀ (j : ImportJob) (tl : List ImportJob),
       listActiveQuery uid store = j :: tl →
       checkForActiveJobs (some uid) store s =
         ({ s with activeJob := some j, isPolling := true },
          [Effect.notice Notification.resuming])) ∧
    (listActiveQuery uid store = [] →
       checkForActiveJobs (some uid) store s = (s, [])) ∧
    checkForActiveJobs none store s = (s, []) := by
  refine ⟨List.length_take_le 1 _, ?_, ?_, ?_, rfl⟩
  · intro j hj
    have hjs : j ∈ List.insertionSort newestFirst
        (store.filter (activeJobMatch uid)) := List.mem_of_mem_take hj
    have hjf : j ∈ store.filter (activeJobMatch uid) :=
      (List.mem_insertionSort newestFirst).mp hjs
    have hj2 := List.mem_filter.mp hjf
    have hmatch := hj2.2
    simp only [activeJobMatch, Bool.and_eq_true, decide_eq_true_eq]
      at hmatch
    refine ⟨hmatch.1, hmatch.2, ?_⟩
    intro k hk hku hka
    have hkf : k ∈ store.filter (activeJobMatch uid) := by
      rw [List.mem_filter]
      exact ⟨hk, by simp [activeJobMatch, hku, hka]⟩
    have hks : k ∈ List.insertionSort newestFirst
        (store.filter (activeJobMatch uid)) :=
      (List.mem_insertionSort newestFirst).mpr hkf
    have hsort := List.sorted_insertionSort newestFirst
      (store.filter (activeJobMatch uid))
    cases hL : List.insertionSort newestFirst
        (store.filter (activeJobMatch uid)) with
    | nil =>
      rw [hL] at hjs
      cases hjs
    | cons hd tl =>
      rw [hL] at hks hsort
      unfold listActiveQuery at hj
      rw [hL] at hj
      simp only [List.take, List.mem_singleton] at hj
      subst hj
      rcases List.mem_cons.mp hks with hk_eq | hk_tl
      · rw [hk_eq]
      · exact List.rel_of_sorted_cons hsort k hk_tl
  · intro j tl hquery
    unfold checkForActiveJobs
    dsimp only
    rw [hquery]
  · intro hquery
    unfold checkForActiveJobs
    dsimp only
    rw [hquery]

/-- C9 witness: with two active jobs of the user in the store, the query
returns exactly the newer one and resuming adopts it and starts polling. -/
theorem C9_resume_adopts_newest_active_witness :
    (newJob.user_id = "user-1" ∧ newJob.status.isActive = true ∧
     ∀ k ∈ [oldJob, newJob, doneJob], k.user_id = "user-1" →
       k.status.isActive = true → k.created_at ≤ newJob.created_at) ∧
    checkForActiveJobs (some "user-1") [oldJob, newJob, doneJob]
        baseTracker =
      ({ baseTracker with activeJob := some newJob, isPolling := true },
       [Effect.notice Notification.resuming]) := by
  have h := C9_resume_adopts_newest_active "user-1"
    [oldJob, newJob, doneJob] baseTracker
  exact ⟨h.2.1 newJob (by decide), h.2.2.1 newJob [] (by decide)⟩

/-- C8 amended witness: a successful poll past the ceiling at a concrete
tracker stops polling. -/
theorem C8_ceiling_on_successful_poll_witness :
    (pollCallback (2 * MAX_POLLING_TIME) (some baseJob)
      baseTracker).1.isPolling = false ∧
    Effect.notice Notification.pollingCeiling ∈
      (pollCallback (2 * MAX_POLLING_TIME) (some baseJob) baseTracker).2 := by
  have h := C8_ceiling_on_successful_poll (2 * MAX_POLLING_TIME) 0 baseJob
    baseTracker rfl (by decide)
  exact ⟨h.1, h.2.2.1⟩

end DataDict
